import Mathlib

/-!
Verification of the self-healing CI pipeline (formatting / dependency fix
workflows) against its natural-language specification.

The development shallowly embeds the Python modules
`command_executor.py`, `formatting_engine.py`, `dependency_engine.py`,
`syntax_verifier.py`, `formatting_workflow.py` and `dependency_workflow.py`.

Modelling conventions:
* Python strings are `List Char` (`Str`); `str.lower` is ASCII `Char.toLower`.
* Python exceptions become an explicit `PyExn` sum; a function that can raise
  returns `Except PyExn _`.
* `re` patterns are embedded by their compiled form: a sequence of
  single-character matchers (a literal or `.`), or a compilation failure.
  The flag sets used at each call site (`re.MULTILINE | re.DOTALL` in the
  formatting engine, `re.IGNORECASE | re.MULTILINE` in the dependency engine)
  are modelled by a record of the two flags that affect this atom language;
  `re.MULTILINE` only changes `^`/`$`, which the atom language does not contain.
* The operating system (spawned processes, wall clock, the Python parser,
  `git commit` success) is a parameter; the working tree and the git index are
  explicit state.
-/

deriving instance DecidableEq for Except

/-- Python strings, modelled as lists of characters. -/
abbrev Str := List Char

/-- Decimal rendering of a natural number, as used by Python f-strings. -/
def natToStr (n : Nat) : Str := (Nat.repr n).data

/-- Characters stripped by Python `str.strip()` (ASCII whitespace; the full
Unicode whitespace set of Python is abstracted to its ASCII part). -/
def isPySpace (c : Char) : Bool :=
  c == ' ' || c == '\t' || c == '\n' || c == '\r' || c == '\x0b' || c == '\x0c'

/-- Python `str.strip()`. -/
def pyStrip (s : Str) : Str :=
  ((s.dropWhile isPySpace).reverse.dropWhile isPySpace).reverse

/-- Python `str.lower()` (ASCII part). -/
def lowerStr (s : Str) : Str := s.map Char.toLower

/-- Python `pat in s` substring test. -/
def isSubstring (pat : Str) : Str → Bool
  | [] => pat.isPrefixOf []
  | s@(_ :: t) => pat.isPrefixOf s || isSubstring pat t

/-- Number of positions of `s` at which `pat` occurs (counts overlapping
occurrences; used to state the "marker present exactly once" property). -/
def countSub (pat s : Str) : Nat :=
  (List.range (s.length + 1)).countP (fun i => pat.isPrefixOf (s.drop i))

/-- Python `str.replace(pat, rep)` for a non-empty `pat` (an empty `pat` is
never used by the embedded code). -/
def replaceAll (s pat rep : Str) : Str :=
  if h : pat = [] then s
  else
    match s with
    | [] => []
    | c :: t =>
      if pat.isPrefixOf (c :: t) then rep ++ replaceAll ((c :: t).drop pat.length) pat rep
      else c :: replaceAll t pat rep
termination_by s.length
decreasing_by
  · simp only [List.length_drop, List.length_cons]
    have : 0 < pat.length := List.length_pos.mpr h
    omega
  · simp

/-- Split a character list on a separator character. -/
def splitOnChar (sep : Char) : Str → List Str
  | [] => [[]]
  | c :: t =>
    let rest := splitOnChar sep t
    if c == sep then [] :: rest
    else
      match rest with
      | [] => [[c]]
      | r :: rs => (c :: r) :: rs

/-- Python `pathlib.Path(s).name`: the last non-empty `/`-separated component
(the `.`/`..` special cases of pathlib, which yield `''`, are not modelled;
neither name is in the executor allow-list, so validation is unaffected). -/
def pathName (s : Str) : Str :=
  match (splitOnChar '/' s).filter (fun p => !p.isEmpty) with
  | [] => []
  | parts => parts.getLast!

/-- Python `pathlib.Path(s).suffix.lower()`: the dotted extension of the last
component, lower-cased; empty when the name has no dot, starts with its only
dot, or ends with a dot. -/
def pySuffixLower (s : Str) : Str :=
  let b := pathName s
  match splitOnChar '.' b with
  | [] => []
  | [_] => []
  | parts =>
    if (parts.headI).isEmpty && parts.length == 2 then []
    else
      let last := parts.getLast!
      if last.isEmpty then [] else '.' :: lowerStr last

/-! ## A small model of Python `re`

A compiled pattern is a sequence of single-character matchers. This captures
everything the claims exercise (literal text, `.`, flag behaviour); anchors,
repetition and capture groups are outside the fragment. `re.MULTILINE`
only affects `^`/`$` and is therefore invisible in this fragment. -/

/-- One single-character matcher of the embedded regex fragment. -/
inductive RAtom
  | lit (c : Char)
  | dot
deriving DecidableEq

/-- The result of `re.compile` on a pattern string: its compiled form, or a
compilation failure carrying the `re.error` text. -/
inductive Regex
  | compiled (atoms : List RAtom)
  | invalid (err : Str)
deriving DecidableEq

/-- The two `re` flags that affect the embedded fragment. -/
structure ReFlags where
  ignorecase : Bool
  dotall : Bool
deriving DecidableEq

/-- Flags used by the formatting engine: `re.MULTILINE | re.DOTALL`
(`formatting_engine.py:101`) — case-sensitive, `.` crosses newlines. -/
def formattingFlags : ReFlags := { ignorecase := false, dotall := true }

/-- Flags used by the dependency engine: `re.IGNORECASE | re.MULTILINE`
(`dependency_engine.py:111`) — case-insensitive, `.` stops at newlines. -/
def dependencyFlags : ReFlags := { ignorecase := true, dotall := false }

/-- Whether one atom matches one character under the given flags. -/
def atomMatches (fl : ReFlags) : RAtom → Char → Bool
  | .lit c, d => if fl.ignorecase then c.toLower == d.toLower else c == d
  | .dot, d => fl.dotall || d != '\n'

/-- Whether the atom sequence matches a prefix of `s`. -/
def matchesFrom (fl : ReFlags) : List RAtom → Str → Bool
  | [], _ => true
  | _ :: _, [] => false
  | a :: as, c :: cs => atomMatches fl a c && matchesFrom fl as cs

/-- Leftmost match of the pattern in `s`, returning the matched text
(`match.group(0)`), like `re.search`. -/
def reFind (fl : ReFlags) (atoms : List RAtom) : Str → Option Str
  | [] => if matchesFrom fl atoms [] then some [] else none
  | s@(_ :: t) =>
    if matchesFrom fl atoms s then some (s.take atoms.length)
    else reFind fl atoms t

/-- Whether `re.search` succeeds. -/
def reSearch (fl : ReFlags) (atoms : List RAtom) (s : Str) : Bool :=
  (reFind fl atoms s).isSome

/-- Result of command execution (`command_executor.py:18`, `CommandResult`).
The wall-clock `execution_time: float` field is not modelled (real time). -/
structure CommandResult where
  command : Str
  return_code : Int
  stdout : Str
  stderr : Str
  timed_out : Bool
  working_directory : Str
deriving DecidableEq

/-- Result of checking one file (`syntax_verifier.py:17`, `SyntaxCheckResult`). -/
structure SyntaxCheckResult where
  file_path : Str
  is_valid : Bool
  error_message : Option Str := none
  line_number : Option Nat := none
  column_number : Option Nat := none
deriving DecidableEq

/-- The Python exceptions the embedded modules raise or catch. Each carries
the `str(e)` text; `commandTimeoutError` additionally carries the partial
result (`CommandTimeoutError.result`) and `syntaxVerificationError` the failed
files (`SyntaxVerificationError.failed_files`). -/
inductive PyExn
  | valueError (msg : Str)
  | commandExecutionError (msg : Str)
  | commandTimeoutError (msg : Str) (result : CommandResult)
  | reError (msg : Str)
  | syntaxVerificationError (msg : Str) (failed_files : List SyntaxCheckResult)
  | gitOperationError (msg : Str)
deriving DecidableEq

/-- Python `str(e)` of an embedded exception. -/
def pyExnStr : PyExn → Str
  | .valueError m => m
  | .commandExecutionError m => m
  | .commandTimeoutError m _ => m
  | .reError m => m
  | .syntaxVerificationError m _ => m
  | .gitOperationError m => m

/-! ## Sandboxed executor (`command_executor.py`, `SafeCommandExecutor`) -/

/-- Allowed base executables (`command_executor.py:49`, `ALLOWED_COMMANDS`). -/
def ALLOWED_COMMANDS : List Str :=
  ["ruff".data, "black".data, "isort".data, "autopep8".data, "yapf".data,
   "pyupgrade".data, "autoflake".data, "docformatter".data, "prettier".data,
   "eslint".data, "rustfmt".data, "pixi".data]

/-- Dangerous command substrings (`command_executor.py:56`,
`DANGEROUS_PATTERNS`), in declaration order. -/
def DANGEROUS_PATTERNS : List Str :=
  ["rm ".data, "sudo ".data, "chmod +x".data, "&&".data, "||".data, ";".data,
   "|".data, ">".data, ">>".data, "<".data, "curl".data, "wget".data,
   "ssh".data, "scp".data, "rsync".data, "$(".data, "`".data]

/-- Constructor arguments of `SafeCommandExecutor.__init__`
(`command_executor.py:61`). -/
structure ExecutorConfig where
  default_timeout : Nat := 300
  max_output_size : Nat := 10485760
  working_directory : Str
deriving DecidableEq

/-- Characters `shlex` treats as token separators. -/
def isShWs (c : Char) : Bool :=
  c == ' ' || c == '\t' || c == '\n' || c == '\r'

/-- Quoting state of the `shlex.split` model; the `Esc` modes record a
pending backslash. -/
inductive QuoteMode
  | noq
  | sq
  | dq
  | noqEsc
  | dqEsc
deriving DecidableEq

/-- Worker for the `shlex.split` model: whitespace-separated tokens with
single/double quote grouping and backslash escaping (inside double quotes a
backslash only escapes a quote or a backslash, as in POSIX `shlex`).
Python raises on an unterminated quote; the model closes the token instead
(no embedded call site produces one). -/
def shlexGo : Str → QuoteMode → Option Str → List Str → List Str
  | [], .noqEsc, cur, acc => acc ++ [cur.getD []]
  | [], .dqEsc, cur, acc => acc ++ [cur.getD [] ++ ['\\']]
  | [], _, cur, acc => acc ++ (match cur with | some t => [t] | none => [])
  | c :: cs, .noqEsc, cur, acc => shlexGo cs .noq (some (cur.getD [] ++ [c])) acc
  | c :: cs, .dqEsc, cur, acc =>
    if c == '\"' || c == '\\' then shlexGo cs .dq (some (cur.getD [] ++ [c])) acc
    else shlexGo cs .dq (some (cur.getD [] ++ ['\\', c])) acc
  | c :: cs, .noq, cur, acc =>
    if isShWs c then
      match cur with
      | some t => shlexGo cs .noq none (acc ++ [t])
      | none => shlexGo cs .noq none acc
    else if c == '\'' then shlexGo cs .sq (some (cur.getD [])) acc
    else if c == '\"' then shlexGo cs .dq (some (cur.getD [])) acc
    else if c == '\\' then shlexGo cs .noqEsc (some (cur.getD [])) acc
    else shlexGo cs .noq (some (cur.getD [] ++ [c])) acc
  | c :: cs, .sq, cur, acc =>
    if c == '\'' then shlexGo cs .noq (some (cur.getD [])) acc
    else shlexGo cs .sq (some (cur.getD [] ++ [c])) acc
  | c :: cs, .dq, cur, acc =>
    if c == '\"' then shlexGo cs .noq (some (cur.getD [])) acc
    else if c == '\\' then shlexGo cs .dqEsc (some (cur.getD [])) acc
    else shlexGo cs .dq (some (cur.getD [] ++ [c])) acc

/-- Model of `shlex.split` (`command_executor.py:114` and `:193`). -/
def shlexSplit (s : Str) : List Str := shlexGo s .noq none []

/-- First dangerous pattern contained in the lower-cased command, if any
(`command_executor.py:187`: the loop raises on the first hit). -/
def findDangerous (command : Str) : Option Str :=
  DANGEROUS_PATTERNS.find? (fun p => isSubstring p (lowerStr command))

/-- `SafeCommandExecutor._validate_command_safety` (`command_executor.py:176`):
the `ValueError` message on rejection, or acceptance. -/
def validateCommandSafety (command : Str) : Except Str Unit :=
  match findDangerous command with
  | some p => .error ("Dangerous command pattern detected: ".data ++ p)
  | none =>
    match shlexSplit command with
    | [] => .error "Empty command".data
    | c0 :: _ =>
      let base := pathName c0
      if ALLOWED_COMMANDS.contains base then .ok ()
      else .error ("Command not in allowlist: ".data ++ base)

/-- Behaviour of one spawned process, as decided by the environment:
`Popen` may fail to start (`FileNotFoundError` / `PermissionError`), or the
process completes within the budget, or it times out (the carried values are
the return code after the kill and the output collected up to it). -/
inductive SpawnBehavior
  | notFound
  | permissionDenied
  | completed (rc : Int) (out err : Str)
  | timedOut (rc : Int) (out err : Str)
deriving DecidableEq

/-- The operating system as the executor sees it: what each spawned command
does, and how spawning it mutates the working tree. -/
structure OS where
  run : List Str → SpawnBehavior
  effect : List Str → (Str → Option Str) → (Str → Option Str)

/-- Observable execution state: the working-tree contents and the log of
spawned processes. -/
structure ExecState where
  tree : Str → Option Str
  spawned : List (List Str)

/-- State after actually spawning `args` (`subprocess.Popen` succeeded). -/
def spawnState (os : OS) (args : List Str) (st : ExecState) : ExecState :=
  { tree := os.effect args st.tree, spawned := st.spawned ++ [args] }

/-- Python `timeout or default` (note: `0 or d` is `d`, Python falsiness). -/
def pyOrNat (o : Option Nat) (d : Nat) : Nat :=
  match o with
  | none => d
  | some n => if n = 0 then d else n

/-- Truncation marker appended to oversized stdout (`command_executor.py:144`). -/
def TRUNC_STDOUT_MARKER : Str := "\n[OUTPUT TRUNCATED - SIZE LIMIT EXCEEDED]".data

/-- Truncation marker appended to oversized stderr (`command_executor.py:146`). -/
def TRUNC_STDERR_MARKER : Str := "\n[ERROR OUTPUT TRUNCATED - SIZE LIMIT EXCEEDED]".data

/-- Output-size capping (`command_executor.py:143`-`146`): streams longer than
the ceiling are cut at the ceiling and the marker is appended. -/
def truncateOutput (limit : Nat) (marker s : Str) : Str :=
  if s.length > limit then s.take limit ++ marker else s

/-- The `CommandTimeoutError` message (`command_executor.py:159`). -/
def timeoutMsg (timeout : Nat) (command : Str) : Str :=
  "Command timed out after ".data ++ natToStr timeout ++ " seconds: ".data ++ command

/-- The part of `SafeCommandExecutor.execute` after validation
(`command_executor.py:108`-`174`): spawn, wait or kill on timeout, truncate
both streams independently, and either return the result or raise
`CommandTimeoutError` carrying it. A non-zero exit is not an error. -/
def executeRun (cfg : ExecutorConfig) (os : OS) (command : Str)
    (timeout? : Option Nat) (workdir? : Option Str) (st : ExecState) :
    Except PyExn CommandResult × ExecState :=
  let timeout := pyOrNat timeout? cfg.default_timeout
  let workDir := workdir?.getD cfg.working_directory
  let cmdArgs := shlexSplit command
  match os.run cmdArgs with
  | .notFound =>
    (.error (.commandExecutionError ("Command not found: ".data ++ command)), st)
  | .permissionDenied =>
    (.error (.commandExecutionError
      ("Permission denied executing command: ".data ++ command)), st)
  | .completed rc out err =>
    let result : CommandResult :=
      { command := command, return_code := rc,
        stdout := truncateOutput cfg.max_output_size TRUNC_STDOUT_MARKER out,
        stderr := truncateOutput cfg.max_output_size TRUNC_STDERR_MARKER err,
        timed_out := false, working_directory := workDir }
    (.ok result, spawnState os cmdArgs st)
  | .timedOut rc out err =>
    let result : CommandResult :=
      { command := command, return_code := rc,
        stdout := truncateOutput cfg.max_output_size TRUNC_STDOUT_MARKER out,
        stderr := truncateOutput cfg.max_output_size TRUNC_STDERR_MARKER err,
        timed_out := true, working_directory := workDir }
    (.error (.commandTimeoutError (timeoutMsg timeout command) result),
     spawnState os cmdArgs st)

/-- `SafeCommandExecutor.execute` (`command_executor.py:79`): when
`check_allowed` is set the command is validated first and a rejection raises
`ValueError` before any process is spawned. -/
def execute (cfg : ExecutorConfig) (os : OS) (command : Str)
    (timeout? : Option Nat) (workdir? : Option Str) (check_allowed : Bool)
    (st : ExecState) : Except PyExn CommandResult × ExecState :=
  if check_allowed then
    match validateCommandSafety command with
    | .error m => (.error (.valueError m), st)
    | .ok _ => executeRun cfg os command timeout? workdir? st
  else executeRun cfg os command timeout? workdir? st

/-! ## Formatting pattern engine (`formatting_engine.py`) -/

/-- One entry of the loaded `patterns` YAML mapping
(`formatting_engine.py`: a plain dict). Every field is optional because the
engine reads the dict keys dynamically; a missing key raises `KeyError` at
the access site. `pattern` distinguishes a missing key (`none`) from a
present pattern string, whose compilation may fail (`Regex.invalid`). -/
structure PatternConfig where
  id : Option Str := none
  name : Option Str := none
  pattern : Option Regex := none
  description : Option Str := none
  fix_command : Option Str := none
  tool : Option Str := none
  severity : Option Str := none
  requires_git_commit : Option Bool := none
  commit_message_template : Option Str := none
deriving DecidableEq

/-- `MatchResult` (`formatting_engine.py:15`). -/
structure MatchResult where
  pattern_id : Str
  tool : Str
  fix_command : Str
  commit_message_template : Str
  severity : Str
  requires_git_commit : Bool
  matched_groups : List Str
  original_output : Str
  description : Str
deriving DecidableEq

/-- `FormattingPatternEngine._try_pattern_match` (`formatting_engine.py:88`):
searches with `re.MULTILINE | re.DOTALL`; a missing `pattern` key
(`KeyError`), a failing compilation (`re.error`) or any other missing field
is swallowed, yielding `none` so the caller moves to the next rule.
`matched_groups` is `[match.group(0)]` followed by the capture groups; the
embedded regex fragment has no capture groups, so only the full match
appears. -/
def tryPatternMatch (output : Str) (pc : PatternConfig) : Option MatchResult :=
  match pc.pattern with
  | none => none
  | some (.invalid _) => none
  | some (.compiled atoms) =>
    match reFind formattingFlags atoms output with
    | none => none
    | some full =>
      match pc.id, pc.tool, pc.fix_command, pc.commit_message_template,
          pc.severity, pc.requires_git_commit, pc.description with
      | some i, some t, some f, some cm, some sv, some rq, some d =>
        some { pattern_id := i, tool := t, fix_command := f,
               commit_message_template := cm, severity := sv,
               requires_git_commit := rq, matched_groups := [full],
               original_output := output, description := d }
      | _, _, _, _, _, _, _ => none

/-- Inner loop of `FormattingPatternEngine.match_output`
(`formatting_engine.py:81`): first matching rule of one tool group wins. -/
def matchToolRules (output : Str) : List PatternConfig → Option MatchResult
  | [] => none
  | pc :: rest =>
    match tryPatternMatch output pc with
    | some m => some m
    | none => matchToolRules output rest

/-- Outer loop of `FormattingPatternEngine.match_output`
(`formatting_engine.py:80`): tool groups are tried in load order. -/
def matchGroups (output : Str) : List (Str × List PatternConfig) → Option MatchResult
  | [] => none
  | (_, ps) :: rest =>
    match matchToolRules output ps with
    | some m => some m
    | none => matchGroups output rest

/-- `FormattingPatternEngine.match_output` (`formatting_engine.py:66`):
empty or whitespace-only output short-circuits to `none` before any rule is
consulted. -/
def matchOutput (patterns : List (Str × List PatternConfig)) (output : Str) :
    Option MatchResult :=
  if output.isEmpty || (pyStrip output).isEmpty then none
  else matchGroups output patterns

/-- The id used in validation messages: `pattern_config.get('id', 'unknown')`. -/
def idOrUnknown (pc : PatternConfig) : Str := pc.id.getD "unknown".data

/-- The required-field names checked by `validate_patterns`
(`formatting_engine.py:188`), in declaration order. -/
def requiredFieldNames : List Str :=
  ["id".data, "name".data, "pattern".data, "description".data,
   "fix_command".data, "tool".data, "severity".data,
   "requires_git_commit".data, "commit_message_template".data]

/-- Whether the named required field is present on the rule dict. -/
def hasField (pc : PatternConfig) (field : Str) : Bool :=
  if field == "id".data then pc.id.isSome
  else if field == "name".data then pc.name.isSome
  else if field == "pattern".data then pc.pattern.isSome
  else if field == "description".data then pc.description.isSome
  else if field == "fix_command".data then pc.fix_command.isSome
  else if field == "tool".data then pc.tool.isSome
  else if field == "severity".data then pc.severity.isSome
  else if field == "requires_git_commit".data then pc.requires_git_commit.isSome
  else if field == "commit_message_template".data then pc.commit_message_template.isSome
  else false

/-- Missing-required-field errors of one rule (`formatting_engine.py:193`). -/
def missingFieldErrors (pc : PatternConfig) : List Str :=
  requiredFieldNames.filterMap fun field =>
    if hasField pc field then none
    else some ("Pattern ".data ++ idOrUnknown pc ++ " missing field: ".data ++ field)

/-- Regex-compilation errors of one rule (`formatting_engine.py:198`):
`re.compile(pattern_config.get('pattern', ''))` — a missing pattern compiles
the empty string and passes; an invalid pattern is reported with the
`re.error` text. -/
def regexErrors (pc : PatternConfig) : List Str :=
  match pc.pattern with
  | some (.invalid err) =>
    ["Invalid regex in pattern ".data ++ idOrUnknown pc ++ ": ".data ++ err]
  | _ => []

/-- The severities `validate_patterns` accepts (`formatting_engine.py:204`):
exactly `low`, `medium` and `high`. -/
def severityAllowed (sv : Option Str) : Bool :=
  sv == some "low".data || sv == some "medium".data || sv == some "high".data

/-- Python rendering of `pattern_config.get('severity')` in the error
message: the string itself, or `None` when the key is absent. -/
def severityShown (sv : Option Str) : Str :=
  match sv with
  | some s => s
  | none => "None".data

/-- Severity errors of one rule (`formatting_engine.py:204`). -/
def severityErrors (pc : PatternConfig) : List Str :=
  if severityAllowed pc.severity then []
  else ["Invalid severity in pattern ".data ++ idOrUnknown pc ++ ": ".data
        ++ severityShown pc.severity]

/-- Per-rule body of `validate_patterns` (`formatting_engine.py:185`-`205`):
field, regex and severity checks accumulate in that order. -/
def validateOne (pc : PatternConfig) : List Str :=
  missingFieldErrors pc ++ regexErrors pc ++ severityErrors pc

/-- `FormattingPatternEngine.validate_patterns` (`formatting_engine.py:176`):
iterates all tool groups and rules, never raising. -/
def validatePatterns (patterns : List (Str × List PatternConfig)) : List Str :=
  patterns.flatMap fun g => g.2.flatMap validateOne

/-! ## Dependency engine (`dependency_engine.py`) -/

/-- One capture-group extraction spec (`capture_groups` entries: dicts with
`index` and `name`). -/
structure CaptureSpec where
  index : Nat
  name : Str
deriving DecidableEq

/-- `DependencyPattern` (`dependency_engine.py:21`): unlike the formatting
dicts this is a dataclass, so required fields are always present (a rule
missing one fails at load time, before matching). The pattern is kept as the
outcome of `re.compile` of its string. -/
structure DependencyPattern where
  id : Str
  name : Str
  pattern : Regex
  description : Str
  fix_command : Option Str
  tool : Str
  severity : Str
  requires_git_commit : Bool
  commit_message_template : Str
  capture_groups : Option (List CaptureSpec) := none
  custom_handler : Option Str := none
deriving DecidableEq

/-- `DependencyMatch` (`dependency_engine.py:38`). -/
structure DependencyMatch where
  pattern_id : Str
  tool : Str
  fix_command : Option Str
  severity : Str
  requires_git_commit : Bool
  commit_message_template : Str
  captured_data : List (Str × Str)
  custom_handler : Option Str := none
  handler_message : Option Str := none
deriving DecidableEq

/-- Extraction of declared capture groups (`dependency_engine.py:118`):
`captured_data[name] = match.group(index)` when `index <= len(match.groups())`.
The embedded regex fragment has no capture groups, so `len(match.groups())`
is `0` and only `index = 0` (the full match) can be extracted. -/
def capturedDataOf (specs : Option (List CaptureSpec)) (full : Str) :
    List (Str × Str) :=
  match specs with
  | none => []
  | some gs => gs.filterMap fun g =>
      if g.index = 0 then some (g.name, full) else none

/-- Template substitution used for handler messages
(`handler['message_template'].format(**captured_data)`), modelled as literal
replacement of each `\x7bname\x7d` placeholder. -/
def formatTemplate (t : Str) (captured : List (Str × Str)) : Str :=
  captured.foldl (fun acc nv => replaceAll acc ('\x7b' :: nv.1 ++ ['\x7d']) nv.2) t

/-- Handler-message resolution (`dependency_engine.py:126`-`130`): the
handler table maps a handler name to an optional `message_template`. -/
def handlerMessageOf (handlers : List (Str × Option Str))
    (custom_handler : Option Str) (captured : List (Str × Str)) : Option Str :=
  match custom_handler with
  | none => none
  | some h =>
    match handlers.lookup h with
    | none => none
    | some none => none
    | some (some tmpl) => some (formatTemplate tmpl captured)

/-- The `DependencyMatch` built for a fired rule (`dependency_engine.py:132`). -/
def buildDependencyMatch (handlers : List (Str × Option Str))
    (p : DependencyPattern) (full : Str) : DependencyMatch :=
  let captured := capturedDataOf p.capture_groups full
  { pattern_id := p.id, tool := p.tool, fix_command := p.fix_command,
    severity := p.severity, requires_git_commit := p.requires_git_commit,
    commit_message_template := p.commit_message_template,
    captured_data := captured, custom_handler := p.custom_handler,
    handler_message := handlerMessageOf handlers p.custom_handler captured }

/-- Inner loop of `DependencyEngine.match_pattern`
(`dependency_engine.py:110`): `re.compile(pattern.pattern, re.IGNORECASE |
re.MULTILINE)` is NOT wrapped in a try block, so a rule whose regex does not
compile raises `re.error` and aborts the whole match. -/
def depMatchRules (handlers : List (Str × Option Str)) (output : Str) :
    List DependencyPattern → Except PyExn (Option DependencyMatch)
  | [] => .ok none
  | p :: rest =>
    match p.pattern with
    | .invalid err => .error (.reError err)
    | .compiled atoms =>
      match reFind dependencyFlags atoms output with
      | some full => .ok (some (buildDependencyMatch handlers p full))
      | none => depMatchRules handlers output rest

/-- `DependencyEngine.match_pattern` (`dependency_engine.py:99`): categories
in load order, rules in declaration order, first match wins. -/
def depMatchPattern (handlers : List (Str × Option Str)) (output : Str) :
    List (Str × List DependencyPattern) → Except PyExn (Option DependencyMatch)
  | [] => .ok none
  | (_, ps) :: rest =>
    match depMatchRules handlers output ps with
    | .error e => .error e
    | .ok (some m) => .ok (some m)
    | .ok none => depMatchPattern handlers output rest

/-- `suggest_fix`'s untyped fix-info dict (`dependency_engine.py:161`),
with `Option` marking keys that are only conditionally present. -/
structure FixInfo where
  pattern_id : Str
  tool : Str
  severity : Str
  requires_git_commit : Bool
  commit_message : Str
  fix_command : Option Str := none
  action : Option Str := none
  message : Option Str := none
  captured_data : Option (List (Str × Str)) := none
deriving DecidableEq

/-- `DependencyEngine.suggest_fix` (`dependency_engine.py:146`). -/
def suggestFix (patterns : List (Str × List DependencyPattern))
    (handlers : List (Str × Option Str)) (output : Str) :
    Except PyExn (Option FixInfo) :=
  match depMatchPattern handlers output patterns with
  | .error e => .error e
  | .ok none => .ok none
  | .ok (some m) =>
    let base : FixInfo :=
      { pattern_id := m.pattern_id, tool := m.tool, severity := m.severity,
        requires_git_commit := m.requires_git_commit,
        commit_message := m.commit_message_template }
    match m.fix_command with
    | some c =>
      .ok (some { base with fix_command := some c, action := some "execute".data })
    | none =>
      match m.custom_handler with
      | some h =>
        .ok (some { base with action := some h
                              message := m.handler_message
                              captured_data := some m.captured_data })
      | none => .ok (some base)

/-! ## Verification & commit unit (`syntax_verifier.py`,
`SyntaxVerifierAndCommitter`)

The git repository is modelled by three content maps over a finite path
universe: `head` (the `HEAD` commit), `index` (the staging area) and
`worktree` (the files on disk). A path absent from a map does not exist
there; a path in `worktree` but in neither `head` nor `index` is untracked.
Rename detection (`R` statuses) is not modelled; the `git` subprocesses for
status/add/restore are assumed to succeed (their own `CalledProcessError`
paths are not exercised by any claim), while `git commit` may fail, as
decided by the environment. -/

/-- State of the git repository and working tree. -/
@[ext]
structure GitState where
  paths : List Str
  head : Str → Option Str
  index : Str → Option Str
  worktree : Str → Option Str

/-- Environment of the verifier: the outcome of `ast.parse` on a file
content (`none` = parses, `some (msg, line, col)` = `SyntaxError`), the
timestamp `datetime.now()` renders, and the behaviour of `git commit`. -/
structure GitEnv where
  pyParse : Str → Option (Str × Option Nat × Option Nat)
  timestamp : Str
  commitSucceeds : Bool
  commitHash : Option Str
  commitStderr : Str

/-- Python file extensions checked for syntax (`syntax_verifier.py:60`). -/
def PYTHON_EXTENSIONS : List Str := [".py".data, ".pyx".data, ".pyi".data]

/-- Staged-column `M`/`A` status of one path (`git status --porcelain`,
first column): the index entry exists and differs from `HEAD`. -/
def stagedMA (s : GitState) (f : Str) : Bool :=
  match s.head f, s.index f with
  | none, some _ => true
  | some h, some i => decide (h ≠ i)
  | _, none => false

/-- Unstaged-column `M` status of one path (second column): the worktree
copy exists, is tracked in the index, and differs from it. -/
def unstagedMA (s : GitState) (f : Str) : Bool :=
  match s.index f, s.worktree f with
  | some i, some w => decide (i ≠ w)
  | _, _ => false

/-- `SyntaxVerifierAndCommitter.get_changed_files` (`syntax_verifier.py:71`):
paths whose porcelain status is modified/added in either column; deletions
and untracked files are excluded. -/
def getChangedFiles (s : GitState) : List Str :=
  s.paths.filter fun f => stagedMA s f || unstagedMA s f

/-- `SyntaxVerifierAndCommitter.check_python_syntax`
(`syntax_verifier.py:108`): reads the worktree copy and runs `ast.parse`; a
missing file yields an invalid result rather than an exception. -/
def checkPythonFile (env : GitEnv) (s : GitState) (f : Str) : SyntaxCheckResult :=
  match s.worktree f with
  | none =>
    { file_path := f, is_valid := false
      error_message := some ("File not found: ".data ++ f) }
  | some content =>
    match env.pyParse content with
    | none => { file_path := f, is_valid := true }
    | some (msg, ln, col) =>
      { file_path := f, is_valid := false, error_message := some msg
        line_number := ln, column_number := col }

/-- The per-file check results of `verify_changed_files_syntax`
(`syntax_verifier.py:153`) over the changed files with a recognized
extension. -/
def syntaxResults (env : GitEnv) (s : GitState) : List SyntaxCheckResult :=
  ((getChangedFiles s).filter
    (fun f => PYTHON_EXTENSIONS.contains (pySuffixLower f))).map
    (checkPythonFile env s)

/-- The failing subset of `syntaxResults`. -/
def syntaxFailures (env : GitEnv) (s : GitState) : List SyntaxCheckResult :=
  (syntaxResults env s).filter fun r => !r.is_valid

/-- `SyntaxVerifierAndCommitter.verify_changed_files_syntax`
(`syntax_verifier.py:153`): raises `SyntaxVerificationError` carrying all
failed files when any changed recognized file fails to parse. -/
def verifyChangedFiles (env : GitEnv) (s : GitState) :
    Except PyExn (List SyntaxCheckResult) :=
  let failed := syntaxFailures env s
  if failed.isEmpty then .ok (syntaxResults env s)
  else .error (.syntaxVerificationError
    ("Syntax errors found in ".data ++ natToStr failed.length ++ " files".data)
    failed)

/-- `SyntaxVerifierAndCommitter.restore_changes` (`syntax_verifier.py:191`):
`git restore --staged .` resets the index to `HEAD`, then `git restore .`
resets every tracked worktree file to its (now `HEAD`) index copy; untracked
files are untouched. -/
def restoreChanges (s : GitState) : GitState :=
  { s with
      index := s.head
      worktree := fun f =>
        match s.head f with
        | some c => some c
        | none => s.worktree f }

/-- `SyntaxVerifierAndCommitter.stage_changes` with `files=None`
(`syntax_verifier.py:219`): `git add .` makes the index mirror the worktree,
then the staged-file list is re-read via `get_changed_files`. -/
def stageChanges (s : GitState) : List Str × GitState :=
  let s1 : GitState := { s with index := s.worktree }
  (getChangedFiles s1, s1)

/-- `GitCommitResult` (`syntax_verifier.py:27`). -/
structure GitCommitResult where
  success : Bool
  commit_hash : Option Str := none
  message : Str := []
  files_committed : List Str := []
  error_message : Option Str := none
deriving DecidableEq

/-- `SyntaxVerifierAndCommitter.create_commit` (`syntax_verifier.py:260`):
reads the staged file list (`git diff --cached --name-only`: index entries
differing from `HEAD`), optionally appends a file-count suffix, then runs
`git commit`; on success `HEAD` becomes the index, on `CalledProcessError` a
failure result is returned and the state is unchanged. -/
def createCommit (env : GitEnv) (message : Str) (author : Option Str)
    (include_file_count : Bool) (s : GitState) : GitCommitResult × GitState :=
  let staged := s.paths.filter fun f => decide (s.index f ≠ s.head f)
  let message :=
    if include_file_count && !staged.isEmpty then
      if staged.length == 1 then message ++ " (1 file)".data
      else message ++ " (".data ++ natToStr staged.length ++ " files)".data
    else message
  if env.commitSucceeds then
    ({ success := true, commit_hash := env.commitHash, message := message,
       files_committed := staged }, { s with head := s.index })
  else
    ({ success := false, message := message,
       error_message := some ("Commit failed: ".data ++ env.commitStderr) }, s)

/-- The "nothing to commit" result literal (`syntax_verifier.py:372`). -/
def noFilesResult : GitCommitResult :=
  { success := false, message := "No files to commit".data
    error_message := some "No changes detected".data }

/-- The `try`-block body of `atomic_format_commit` (`syntax_verifier.py:363`-
`398`): verify (when requested), stage, short-circuit when nothing is
staged, substitute `\x7btool\x7d` / `\x7btimestamp\x7d`, commit, and on a
failed commit restore and raise `GitOperationError`. -/
def atomicBody (env : GitEnv) (tmpl tool_name : Str) (author : Option Str)
    (include_file_count : Bool) (verify : Bool) (s : GitState) :
    Except PyExn GitCommitResult × GitState :=
  let afterVerify : Except PyExn Unit :=
    if verify then
      match verifyChangedFiles env s with
      | .error e => .error e
      | .ok _ => .ok ()
    else .ok ()
  match afterVerify with
  | .error e => (.error e, s)
  | .ok _ =>
    let (staged, s1) := stageChanges s
    if staged.isEmpty then (.ok noFilesResult, s1)
    else
      let msg := replaceAll (replaceAll tmpl "\x7btool\x7d".data tool_name)
        "\x7btimestamp\x7d".data env.timestamp
      let (cr, s2) := createCommit env msg author include_file_count s1
      if cr.success then (.ok cr, s2)
      else
        (.error (.gitOperationError
          ("Commit failed: ".data ++ cr.error_message.getD [])),
         restoreChanges s2)

/-- `SyntaxVerifierAndCommitter.atomic_format_commit`
(`syntax_verifier.py:338`): the `except` clauses — a
`SyntaxVerificationError` restores everything and is re-raised as-is; any
other exception (including the `GitOperationError` raised on a failed
commit inside the `try`) restores everything and is wrapped as
`GitOperationError('Atomic commit failed: ...')`. -/
def atomicFormatCommit (env : GitEnv) (tmpl tool_name : Str)
    (author : Option Str) (include_file_count : Bool) (verify : Bool)
    (s : GitState) : Except PyExn GitCommitResult × GitState :=
  match atomicBody env tmpl tool_name author include_file_count verify s with
  | (.ok r, s1) => (.ok r, s1)
  | (.error (.syntaxVerificationError m ff), s1) =>
    (.error (.syntaxVerificationError m ff), restoreChanges s1)
  | (.error e, s1) =>
    (.error (.gitOperationError ("Atomic commit failed: ".data ++ pyExnStr e)),
     restoreChanges s1)

/-! ## Formatting workflow (`formatting_workflow.py`, `FormattingFixWorkflow`) -/

/-- `WorkflowResult` (`formatting_workflow.py:29`). The wall-clock
`execution_time` field is not modelled (real time). -/
structure WorkflowResult where
  success : Bool
  message : Str
  pattern_matched : Option Str := none
  tool_used : Option Str := none
  command_executed : Option Str := none
  files_fixed : List Str := []
  commit_result : Option GitCommitResult := none
  error_details : Option Str := none
deriving DecidableEq

/-- The `git_config` block the workflow reads (`formatting_workflow.py:263`):
`commit_author` and `include_file_count` (default `True`). -/
structure GitConfig where
  commit_author : Option Str := none
  include_file_count : Bool := true
deriving DecidableEq

/-- The executor as the formatting workflow sees it:
`_execute_fix_command` (tool, resolved command) and `_execute_dry_run_command`
(command), each returning a result or raising, and possibly mutating the
working tree. -/
structure FmtExec where
  runFix : Str → Str → GitState → Except PyExn CommandResult × GitState
  runDry : Str → GitState → Except PyExn CommandResult × GitState

/-- The `except` clauses of `process_tool_output`
(`formatting_workflow.py:208`-`242`): every raised exception is mapped to a
`WorkflowResult(success=False, ..., error_details=str(e))`; the final
`except Exception` clause makes the mapping total, so no exception escapes
the formatting workflow. -/
def handleWorkflowExn (e : PyExn) : WorkflowResult :=
  match e with
  | .syntaxVerificationError _ failed =>
    { success := false
      message := "Syntax errors detected after formatting fix: ".data
        ++ natToStr failed.length ++ " files".data
      error_details := some (pyExnStr e) }
  | .commandExecutionError _ =>
    { success := false
      message := "Failed to execute formatting command: ".data ++ pyExnStr e
      error_details := some (pyExnStr e) }
  | .commandTimeoutError _ _ =>
    { success := false
      message := "Failed to execute formatting command: ".data ++ pyExnStr e
      error_details := some (pyExnStr e) }
  | .gitOperationError _ =>
    { success := false
      message := "Git operation failed: ".data ++ pyExnStr e
      error_details := some (pyExnStr e) }
  | _ =>
    { success := false
      message := "Unexpected workflow error: ".data ++ pyExnStr e
      error_details := some (pyExnStr e) }

/-- `FormattingFixWorkflow.process_tool_output`
(`formatting_workflow.py:104`): match, execute (or dry-run), then verify and
commit via `atomic_format_commit`; every exception raised along the way is
caught by `handleWorkflowExn`. -/
def processToolOutput (patterns : List (Str × List PatternConfig))
    (gcfg : GitConfig) (genv : GitEnv) (ex : FmtExec) (tool_output : Str)
    (dry_run verify_flag create_commit : Bool) (s : GitState) :
    WorkflowResult × GitState :=
  match matchOutput patterns tool_output with
  | none =>
    ({ success := false
       message := "No fixable formatting issues detected".data }, s)
  | some m =>
    if dry_run then
      match ex.runDry m.fix_command s with
      | (.error e, s1) => (handleWorkflowExn e, s1)
      | (.ok cr, s1) =>
        ({ success := true
           message := "Dry run completed for ".data ++ m.tool
           pattern_matched := some m.pattern_id
           tool_used := some m.tool
           command_executed := some cr.command }, s1)
    else
      match ex.runFix m.tool m.fix_command s with
      | (.error e, s1) => (handleWorkflowExn e, s1)
      | (.ok cr, s1) =>
        if create_commit then
          match atomicFormatCommit genv m.commit_message_template m.tool
              gcfg.commit_author gcfg.include_file_count verify_flag s1 with
          | (.error e, s2) => (handleWorkflowExn e, s2)
          | (.ok commitRes, s2) =>
            if commitRes.success then
              ({ success := true
                 message := "Successfully fixed and committed ".data ++ m.tool
                   ++ " formatting issues".data
                 pattern_matched := some m.pattern_id
                 tool_used := some m.tool
                 command_executed := some cr.command
                 files_fixed := commitRes.files_committed
                 commit_result := some commitRes }, s2)
            else
              ({ success := false
                 message := "Fix applied but commit failed: ".data
                   ++ commitRes.error_message.getD []
                 pattern_matched := some m.pattern_id
                 tool_used := some m.tool
                 command_executed := some cr.command
                 commit_result := some commitRes
                 error_details := commitRes.error_message }, s2)
        else
          ({ success := true
             message := "Successfully applied ".data ++ m.tool
               ++ " formatting fixes".data
             pattern_matched := some m.pattern_id
             tool_used := some m.tool
             command_executed := some cr.command
             files_fixed := getChangedFiles s1 }, s1)

/-! ## Dependency workflow (`dependency_workflow.py`, `DependencyFixWorkflow`)
and `DependencyEngine.apply_fix` -/

/-- Environment of the dependency workflow: the loaded rule set and handler
table, the executor it owns (configuration and operating system), the
filesystem facts `_verify_pixi_install` inspects, and the behaviour of the
`git` subprocesses `_commit_changes` runs. -/
structure DepEnv where
  patterns : List (Str × List DependencyPattern)
  handlers : List (Str × Option Str)
  cfg : ExecutorConfig
  os : OS
  lockExists : Bool
  pyprojectExists : Bool
  lockMtime : Nat
  pyprojectMtime : Nat
  statusEmpty : Bool
  addOk : Bool
  addStderr : Str
  commitOk : Bool
  commitStderr : Str

/-- `DependencyEngine.apply_fix` (`dependency_engine.py:179`): an `execute`
action runs the fix command through the engine's own `SafeCommandExecutor`
(defaults, allow-list enforced) — any exception it raises (validation,
execution, timeout) propagates to the caller; `suggest_pixi_add` and
`notify_conflict` return without any I/O. A `none` message is rendered as
Python would print it. -/
def applyFix (env : DepEnv) (fi : FixInfo) (dry_run : Bool) (st : ExecState) :
    Except PyExn (Bool × Str) × ExecState :=
  let action := fi.action.getD "execute".data
  if action == "execute".data && fi.fix_command.isSome then
    let c := fi.fix_command.getD []
    if dry_run then (.ok (true, "Would execute: ".data ++ c), st)
    else
      match execute env.cfg env.os c none none true st with
      | (.error e, st1) => (.error e, st1)
      | (.ok r, st1) =>
        if r.return_code == 0 then
          (.ok (true, "Successfully executed: ".data ++ c), st1)
        else
          (.ok (false, "Failed to execute ".data ++ c ++ ": ".data ++ r.stderr),
           st1)
  else if action == "suggest_pixi_add".data then
    (.ok (true, fi.message.getD "None".data), st)
  else if action == "notify_conflict".data then
    (.ok (false, fi.message.getD "None".data), st)
  else
    (.ok (false, "Unknown action: ".data ++ action), st)

/-- `DependencyFixWorkflow._verify_pixi_install` (`dependency_workflow.py:100`):
checks `pixi.lock` exists, runs `pixi info` through the executor (whose
exceptions propagate), and compares file modification times. -/
def verifyPixiInstall (env : DepEnv) (st : ExecState) :
    Except PyExn (Bool × Str) × ExecState :=
  if !env.lockExists then
    (.ok (false, "pixi.lock file not found after install".data), st)
  else
    match execute env.cfg env.os "pixi info".data none
        (some env.cfg.working_directory) true st with
    | (.error e, st1) => (.error e, st1)
    | (.ok r, st1) =>
      if r.return_code != 0 then
        (.ok (false, "Failed to verify pixi environment: ".data ++ r.stderr), st1)
      else if env.pyprojectExists && env.lockMtime < env.pyprojectMtime then
        (.ok (false, "pixi.lock appears to still be outdated".data), st1)
      else
        (.ok (true, "Pixi environment verified successfully".data), st1)

/-- `DependencyFixWorkflow._commit_changes` (`dependency_workflow.py:127`):
plain `git` subprocesses with its own try/except — it never raises. -/
def depCommitChanges (env : DepEnv) (commit_message : Str) : Bool × Str :=
  if env.statusEmpty then (true, "No changes to commit".data)
  else if env.lockExists && !env.addOk then
    (false, "Failed to stage pixi.lock: ".data ++ env.addStderr)
  else if !env.commitOk then
    (false, "Failed to commit: ".data ++ env.commitStderr)
  else (true, "Changes committed: ".data ++ commit_message)

/-- `DependencyFixWorkflow.execute_workflow` (`dependency_workflow.py:57`):
analyze, apply, verify, commit. The method has NO try/except of its own, so
every exception raised by `suggest_fix` (a `re.error`) or by the executor
inside `apply_fix` / `_verify_pixi_install` (validation, execution and
timeout errors) propagates to the caller. -/
def executeWorkflow (env : DepEnv) (output : Str) (dry_run : Bool)
    (st : ExecState) : Except PyExn (Bool × Str) × ExecState :=
  match suggestFix env.patterns env.handlers output with
  | .error e => (.error e, st)
  | .ok none => (.ok (false, "No dependency issues detected".data), st)
  | .ok (some fi) =>
    match applyFix env fi dry_run st with
    | (.error e, st1) => (.error e, st1)
    | (.ok (false, msg), st1) => (.ok (false, msg), st1)
    | (.ok (true, msg), st1) =>
      if fi.action == some "execute".data && !dry_run then
        let afterVerify : Except PyExn (Option (Bool × Str)) × ExecState :=
          if isSubstring "pixi install".data (fi.fix_command.getD []) then
            match verifyPixiInstall env st1 with
            | (.error e, st2) => (.error e, st2)
            | (.ok (false, vmsg), st2) =>
              (.ok (some (false, "Fix verification failed: ".data ++ vmsg)), st2)
            | (.ok (true, _), st2) => (.ok none, st2)
          else (.ok none, st1)
        match afterVerify with
        | (.error e, st2) => (.error e, st2)
        | (.ok (some failRes), st2) => (.ok failRes, st2)
        | (.ok none, st2) =>
          if fi.requires_git_commit then
            match depCommitChanges env fi.commit_message with
            | (false, _) => (.ok (true, msg), st2)
            | (true, cmsg) => (.ok (true, msg ++ '\n' :: cmsg), st2)
          else (.ok (true, msg), st2)
      else (.ok (true, msg), st1)

/-! ## Helper definitions for the verification section -/

/-- The compiled form of a plain-text pattern: one literal atom per char. -/
def litAtoms (s : Str) : List RAtom := s.map RAtom.lit

/-- All formatting rules in iteration order (groups in load order, rules in
declaration order). -/
def allRules (patterns : List (Str × List PatternConfig)) : List PatternConfig :=
  patterns.flatMap (fun g => g.2)

/-- All dependency rules in iteration order. -/
def allDepRules (patterns : List (Str × List DependencyPattern)) :
    List DependencyPattern :=
  patterns.flatMap (fun g => g.2)

/-- Projection of a possibly-raising execution onto its stdout. -/
def execStdout : Except PyExn CommandResult → Str
  | .ok r => r.stdout
  | .error _ => []

/-- Whether a workflow invocation ended in an escaped `CommandTimeoutError`. -/
def escapedTimeout : Except PyExn (Bool × Str) → Bool
  | .error (.commandTimeoutError _ _) => true
  | _ => false

/-- Whether an atomic commit ended in a raised `SyntaxVerificationError`. -/
def raisedSyntaxError : Except PyExn GitCommitResult → Bool
  | .error (.syntaxVerificationError _ _) => true
  | _ => false

/-- An execution state with an empty tree and no spawned processes. -/
def emptyExecState : ExecState := { tree := fun _ => none, spawned := [] }

/-- An executor configuration with the source defaults. -/
def defaultCfg : ExecutorConfig := { working_directory := "/repo".data }

/-- An operating system on which every process times out with partial
output. -/
def timeoutOS : OS :=
  { run := fun _ => .timedOut (-9) "part out".data "part err".data
    effect := fun _ t => t }

/-- An operating system on which every process exits cleanly and silently. -/
def benignOS : OS :=
  { run := fun _ => .completed 0 [] [], effect := fun _ t => t }

/-- A fully-populated formatting rule whose pattern is the literal text
`error` (used to exhibit case-sensitivity of the formatting matcher). -/
def fmtRuleError : PatternConfig :=
  { id := some "ruff-err".data, name := some "n".data
    pattern := some (.compiled (litAtoms "error".data))
    description := some "d".data
    fix_command := some "ruff check --fix .".data
    tool := some "ruff".data, severity := some "medium".data
    requires_git_commit := some true
    commit_message_template := some "fix".data }

/-- A formatting rule whose regex matches everything (empty atom list),
used to show blank input short-circuits before any rule is consulted. -/
def fmtRuleCatchAll : PatternConfig :=
  { fmtRuleError with id := some "catch-all".data
                      pattern := some (.compiled []) }

/-- A formatting rule whose severity is `critical`. -/
def fmtRuleCritical : PatternConfig :=
  { fmtRuleError with severity := some "critical".data }

/-- A formatting rule that never matches (used as an earlier non-matching
rule in first-match-wins witnesses). -/
def fmtRuleNoMatch : PatternConfig :=
  { fmtRuleError with id := some "no-match".data
                      pattern := some (.compiled (litAtoms "zzzz".data)) }

/-- A dependency rule with a fix command, matching the literal text
`pixi.lock`. -/
def depLockRule : DependencyPattern :=
  { id := "dep-lock".data, name := "lock".data
    pattern := .compiled (litAtoms "pixi.lock".data)
    description := "outdated lock".data
    fix_command := some "pixi install".data, tool := "pixi".data
    severity := "high".data, requires_git_commit := true
    commit_message_template := "fix deps".data }

/-- A dependency rule whose regex does not compile. -/
def depBadRule : DependencyPattern :=
  { depLockRule with id := "dep-bad".data, pattern := .invalid "bad regex".data }

/-- A dependency rule matching the literal text `boom`. -/
def depBoomRule : DependencyPattern :=
  { depLockRule with id := "dep-good".data
                     pattern := .compiled (litAtoms "boom".data) }

/-- A dependency rule whose pattern is `a.b` (`.` = any character): matches
`a b` on one line, and `a\nb` only under `DOTALL`. -/
def depDotRule : DependencyPattern :=
  { depLockRule with id := "dep-dot".data
                     pattern := .compiled [.lit 'a', .dot, .lit 'b'] }

/-- A dependency-workflow environment whose executor times out: used to show
a `CommandTimeoutError` escaping `execute_workflow`. -/
def depTimeoutEnv : DepEnv :=
  { patterns := [("lock_file_issues".data, [depLockRule])], handlers := []
    cfg := defaultCfg, os := timeoutOS
    lockExists := true, pyprojectExists := false, lockMtime := 0
    pyprojectMtime := 0, statusEmpty := false, addOk := true, addStderr := []
    commitOk := true, commitStderr := [] }

/-- An executor configuration with a 50-byte output ceiling. -/
def smallCfg : ExecutorConfig :=
  { default_timeout := 300, max_output_size := 50
    working_directory := "/repo".data }

/-- An operating system whose process prints the stdout truncation marker
followed by ten digits (51 characters). -/
def markerEchoOS : OS :=
  { run := fun _ => .completed 0 (TRUNC_STDOUT_MARKER ++ "0123456789".data) []
    effect := fun _ t => t }

/-- A content map holding a single file `a.py` with content `x`. -/
def singleFileMap : Str → Option Str :=
  fun f => if f == "a.py".data then some "x".data else none

/-- A clean repository: `HEAD`, index and worktree all agree. -/
def cleanState : GitState :=
  { paths := ["a.py".data], head := singleFileMap, index := singleFileMap
    worktree := singleFileMap }

/-- A verifier environment where every file parses and `git commit`
succeeds. -/
def okGitEnv : GitEnv :=
  { pyParse := fun _ => none, timestamp := "t".data, commitSucceeds := true
    commitHash := some "abc".data, commitStderr := [] }

/-- `HEAD` content map of the dirty-tree counterexample: `a.py` contains
`ok`, `notes.txt` contains `orig`. -/
def cexHead : Str → Option Str := fun f =>
  if f == "a.py".data then some "ok".data
  else if f == "notes.txt".data then some "orig".data
  else none

/-- Pre-fix worktree of the dirty-tree counterexample: `notes.txt` carries
an uncommitted local edit. -/
def cexWtPre : Str → Option Str := fun f =>
  if f == "notes.txt".data then some "edit".data else cexHead f

/-- Post-fix worktree: the fix command rewrote `a.py` to unparsable
content; the local edit of `notes.txt` is still present. -/
def cexWtPost : Str → Option Str := fun f =>
  if f == "a.py".data then some "broken".data else cexWtPre f

/-- The repository state before the fix command ran (dirty tree). -/
def cexPre : GitState :=
  { paths := ["a.py".data, "notes.txt".data], head := cexHead
    index := cexHead, worktree := cexWtPre }

/-- The repository state after the fix command ran. -/
def cexPost : GitState := { cexPre with worktree := cexWtPost }

/-- A verifier environment on which exactly the content `broken` fails to
parse. -/
def cexGitEnv : GitEnv :=
  { pyParse := fun c =>
      if c == "broken".data then some ("invalid syntax".data, some 1, some 0)
      else none
    timestamp := "t".data, commitSucceeds := true
    commitHash := some "abc".data, commitStderr := [] }

/-- A timeout exception with a fixed partial result, raised by
`fmtFailingExec`. -/
def fmtTimeoutExn : PyExn :=
  .commandTimeoutError "boom".data
    { command := "ruff check --fix .".data, return_code := -9
      stdout := [], stderr := [], timed_out := true
      working_directory := "/repo".data }

/-- A formatting-workflow executor whose fix command raises a
`CommandTimeoutError` carrying a fixed partial result. -/
def fmtFailingExec : FmtExec :=
  { runFix := fun _ _ s => (.error fmtTimeoutExn, s)
    runDry := fun _ s => (.error (.valueError "unused".data), s) }

/-- A formatting rule whose regex fails to compile. -/
def fmtRuleBadRegex : PatternConfig :=
  { fmtRuleError with id := some "fmt-bad".data
                      pattern := some (.invalid "unbalanced".data) }

/-- The match result produced by `fmtRuleError` on the output `error: x`. -/
def fmtMatchError : MatchResult :=
  { pattern_id := "ruff-err".data, tool := "ruff".data
    fix_command := "ruff check --fix .".data
    commit_message_template := "fix".data, severity := "medium".data
    requires_git_commit := true, matched_groups := ["error".data]
    original_output := "error: x".data, description := "d".data }

/-- A worktree in which the fix command rewrote `a.py` of `cleanState` to
unparsable content. -/
def brokenMap : Str → Option Str :=
  fun f => if f == "a.py".data then some "broken".data else singleFileMap f

/-! ## General lemmas -/

theorem isPrefixOf_iff_take : ∀ (m L : Str), (m.isPrefixOf L) = true ↔ L.take m.length = m
  | [], L => by simp [List.isPrefixOf]
  | _ :: _, [] => by simp [List.isPrefixOf]
  | a :: as, b :: bs => by
    simp only [List.isPrefixOf, List.length_cons, List.take_succ_cons,
      Bool.and_eq_true, beq_iff_eq, List.cons.injEq, isPrefixOf_iff_take as bs]
    tauto

theorem countSub_ne_zero_of_isPrefixOf {m p : Str} {i : Nat} (hi : i ≤ p.length)
    (h : m.isPrefixOf (p.drop i) = true) : countSub m p ≠ 0 := by
  unfold countSub
  intro h0
  have hmem : i ∈ List.range (p.length + 1) := by
    simp only [List.mem_range]; omega
  have := List.countP_eq_zero.mp h0 i hmem
  simp [h] at this

/-! ## C10: blank input short-circuits the formatting matcher -/

/-- C10: for every input string that is empty or consists only of
whitespace, the formatting pattern matcher's `match_output` returns `none`
without consulting any rule (the quantification over `patterns` covers rule
sets containing rules whose regex would match the string). -/
theorem C10_theorem (patterns : List (Str × List PatternConfig)) (output : Str)
    (hb : output.all isPySpace = true) :
    matchOutput patterns output = none := by
  have h1 : output.dropWhile isPySpace = [] := by
    rw [List.dropWhile_eq_nil_iff]
    intro x hx
    exact List.all_eq_true.mp hb x hx
  unfold matchOutput
  simp [pyStrip, h1]

/-- Witness for C10: on the whitespace-only input `"  \n"` the matcher
returns `none` even though the loaded catch-all rule matches every
non-blank input. -/
theorem C10_witness :
    matchOutput [("ruff".data, [fmtRuleCatchAll])] "  \n".data = none
    ∧ tryPatternMatch "x".data fmtRuleCatchAll ≠ none :=
  ⟨C10_theorem _ _ (by decide), by decide⟩

/-! ## C3: validation rejects dangerous or non-allow-listed commands before
any process is spawned -/

/-- C3: for every command string containing a dangerous pattern, or whose
tokenized base executable is not in the allow-list, `execute` with the
allow-list check enabled returns a `ValueError` and leaves the execution
state (working tree and spawn log) untouched: no process is spawned and the
tree is not mutated. -/
theorem C3_theorem (cfg : ExecutorConfig) (os : OS) (command : Str)
    (t : Option Nat) (wd : Option Str) (st : ExecState)
    (h : DANGEROUS_PATTERNS.any (fun p => isSubstring p (lowerStr command)) = true
      ∨ ∀ c0 ∈ (shlexSplit command).head?, ALLOWED_COMMANDS.contains (pathName c0) = false) :
    ∃ m, execute cfg os command t wd true st = (.error (.valueError m), st) := by
  have hv : ∃ m, validateCommandSafety command = .error m := by
    cases hf : findDangerous command with
    | some p =>
      exact ⟨_, by unfold validateCommandSafety; rw [hf]⟩
    | none =>
      have hnone : DANGEROUS_PATTERNS.any
          (fun p => isSubstring p (lowerStr command)) = false := by
        rw [List.any_eq_false]
        intro p hp
        have := List.find?_eq_none.mp (by simpa [findDangerous] using hf) p hp
        simpa using this
      rcases h with h | h
      · rw [hnone] at h; cases h
      · cases hs : shlexSplit command with
        | nil =>
          exact ⟨_, by unfold validateCommandSafety; rw [hf, hs]⟩
        | cons c0 rest =>
          have hc := h c0 (by simp [hs])
          refine ⟨"Command not in allowlist: ".data ++ pathName c0, ?_⟩
          unfold validateCommandSafety
          rw [hf, hs]
          simp only [hc, Bool.false_eq_true, if_false]
  obtain ⟨m, hm⟩ := hv
  exact ⟨m, by unfold execute; rw [if_pos rfl, hm]⟩

/-- Witness for C3: the command `"; rm -rf /"` of Scenario D is rejected as
a validation error with the execution state unchanged. -/
theorem C3_witness :
    ∃ m, execute defaultCfg benignOS "; rm -rf /".data none none true emptyExecState
      = (.error (.valueError m), emptyExecState) :=
  C3_theorem _ _ _ _ _ _ (Or.inl (by decide))

/-! ## C4: a timeout raises `CommandTimeoutError` carrying the partial
result -/

/-- C4: for every command whose process exceeds its time budget, `execute`
raises a `CommandTimeoutError` carrying a result with `timed_out = true`
and the partial stdout/stderr collected up to the kill (each capped by the
output ceiling), rather than discarding that output or returning
normally. -/
theorem C4_theorem (cfg : ExecutorConfig) (os : OS) (command : Str)
    (t : Option Nat) (wd : Option Str) (st : ExecState) (rc : Int)
    (pout perr : Str)
    (hv : validateCommandSafety command = .ok ())
    (hrun : os.run (shlexSplit command) = .timedOut rc pout perr) :
    ∃ r, execute cfg os command t wd true st =
        (.error (.commandTimeoutError
          (timeoutMsg (pyOrNat t cfg.default_timeout) command) r),
         spawnState os (shlexSplit command) st)
      ∧ r.timed_out = true
      ∧ r.stdout = truncateOutput cfg.max_output_size TRUNC_STDOUT_MARKER pout
      ∧ r.stderr = truncateOutput cfg.max_output_size TRUNC_STDERR_MARKER perr
      ∧ r.command = command ∧ r.return_code = rc := by
  refine ⟨{ command := command, return_code := rc
            stdout := truncateOutput cfg.max_output_size TRUNC_STDOUT_MARKER pout
            stderr := truncateOutput cfg.max_output_size TRUNC_STDERR_MARKER perr
            timed_out := true
            working_directory := wd.getD cfg.working_directory },
          ?_, rfl, rfl, rfl, rfl, rfl⟩
  unfold execute executeRun
  rw [if_pos rfl, hv]
  simp [hrun]

/-- Witness for C4: a timing-out `ruff check --fix .` raises a timeout
error whose result keeps the partial output `part out` / `part err`. -/
theorem C4_witness :
    ∃ r, execute defaultCfg timeoutOS "ruff check --fix .".data none none true
        emptyExecState =
        (.error (.commandTimeoutError
          (timeoutMsg (pyOrNat none defaultCfg.default_timeout)
            "ruff check --fix .".data) r),
         spawnState timeoutOS (shlexSplit "ruff check --fix .".data) emptyExecState)
      ∧ r.timed_out = true
      ∧ r.stdout = truncateOutput defaultCfg.max_output_size TRUNC_STDOUT_MARKER
          "part out".data
      ∧ r.stderr = truncateOutput defaultCfg.max_output_size TRUNC_STDERR_MARKER
          "part err".data
      ∧ r.command = "ruff check --fix .".data ∧ r.return_code = -9 :=
  C4_theorem _ _ _ _ _ _ _ _ _ (by decide) rfl

/-! ## C7: severity validation accepts exactly low/medium/high -/

/-- C7 (amended): `validate_patterns` reports no severity error for a rule
exactly when its severity is one of `low`, `medium`, `high`; in particular
`critical` IS reported as invalid. `validateOne` is the per-rule body of
`validate_patterns`, the concatenation of its missing-field, regex and
severity checks. -/
theorem C7_theorem (pc : PatternConfig) :
    (severityErrors pc = [] ↔ (pc.severity = some "low".data ∨
      pc.severity = some "medium".data ∨ pc.severity = some "high".data))
    ∧ validateOne pc = missingFieldErrors pc ++ regexErrors pc ++ severityErrors pc := by
  refine ⟨?_, rfl⟩
  unfold severityErrors
  cases hall : severityAllowed pc.severity with
  | true =>
    simp only [hall, if_true, true_iff]
    simp only [severityAllowed, Bool.or_eq_true, beq_iff_eq] at hall
    tauto
  | false =>
    simp only [hall, Bool.false_eq_true, if_false]
    simp only [severityAllowed, Bool.or_eq_false_iff, beq_eq_false_iff_ne,
      ne_eq] at hall
    constructor
    · intro hcontr; simp at hcontr
    · intro hsv
      exfalso
      rcases hsv with hsv | hsv | hsv <;> tauto

/-- Counterexample for C7: a fully well-formed rule with severity
`critical` makes `validate_patterns` report exactly one invalid-severity
error, contradicting the claim that `critical` yields no severity error. -/
theorem C7_counterexample :
    validatePatterns [("ruff".data, [fmtRuleCritical])] =
      ["Invalid severity in pattern ruff-err: critical".data] := by
  decide

/-! ## C9: the "nothing to commit" outcome -/

/-- C9 (amended): when verification passes (or was skipped) and staging
finds no changes, `atomic_format_commit` returns normally — no exception is
raised and no restore happens — with the message `No files to commit`; but
the returned outcome is flagged `success = false` and carries
`error_message = 'No changes detected'`, i.e. it has the shape of a
failure, not of a non-error outcome. -/
theorem C9_theorem (env : GitEnv) (tmpl tool : Str) (author : Option Str)
    (inc vflag : Bool) (s : GitState)
    (hver : vflag = false ∨ syntaxFailures env s = [])
    (hstage : (stageChanges s).1 = []) :
    atomicFormatCommit env tmpl tool author inc vflag s =
      (.ok noFilesResult, (stageChanges s).2)
    ∧ noFilesResult.success = false
    ∧ noFilesResult.message = "No files to commit".data
    ∧ noFilesResult.error_message = some "No changes detected".data := by
  refine ⟨?_, rfl, rfl, rfl⟩
  have hbody : atomicBody env tmpl tool author inc vflag s =
      (.ok noFilesResult, (stageChanges s).2) := by
    unfold atomicBody
    have hav : (if vflag then
        match verifyChangedFiles env s with
        | .error e => Except.error e
        | .ok _ => Except.ok ()
      else Except.ok ()) = Except.ok () := by
      rcases hver with hver | hver
      · rw [hver]; rfl
      · cases hvf : vflag
        · rfl
        · unfold verifyChangedFiles
          rw [hver]
          rfl
    rw [hav]
    have hsc : stageChanges s = ([], (stageChanges s).2) := by
      rw [← hstage]
    rw [hsc]
    rfl
  unfold atomicFormatCommit
  rw [hbody]

/-- Witness for C9: on a clean repository with an all-parsing environment,
the theorem applies and the returned outcome is the `success = false`
"No files to commit" result. -/
theorem C9_witness :
    atomicFormatCommit okGitEnv "msg".data "ruff".data none true true cleanState =
      (.ok noFilesResult, (stageChanges cleanState).2)
    ∧ noFilesResult.success = false
    ∧ noFilesResult.message = "No files to commit".data
    ∧ noFilesResult.error_message = some "No changes detected".data :=
  C9_theorem _ _ _ _ _ _ _ (Or.inr (by decide)) (by decide)

/-- Counterexample for C9: the claim reads the "nothing to commit" outcome
as non-error, but at a concrete clean state the returned outcome has
`success = false` and a populated `error_message` — the failure shape. -/
theorem C9_counterexample :
    (atomicFormatCommit okGitEnv "msg".data "ruff".data none true true cleanState).1
      = .ok noFilesResult
    ∧ noFilesResult.success = false
    ∧ noFilesResult.error_message = some "No changes detected".data := by
  exact ⟨by decide, by decide, by decide⟩

/-! ## Matcher iteration lemmas -/

theorem matchToolRules_append (out : Str) (l1 l2 : List PatternConfig) :
    matchToolRules out (l1 ++ l2) =
      match matchToolRules out l1 with
      | some m => some m
      | none => matchToolRules out l2 := by
  induction l1 with
  | nil => simp [matchToolRules]
  | cons pc rest ih =>
    simp only [List.cons_append, matchToolRules]
    cases tryPatternMatch out pc <;> simp [ih]

theorem matchToolRules_eq_none (out : Str) (l : List PatternConfig)
    (h : ∀ q ∈ l, tryPatternMatch out q = none) :
    matchToolRules out l = none := by
  induction l with
  | nil => rfl
  | cons pc rest ih =>
    simp only [matchToolRules, h pc (by simp)]
    exact ih fun q hq => h q (by simp [hq])

theorem matchGroups_eq_allRules (out : Str)
    (patterns : List (Str × List PatternConfig)) :
    matchGroups out patterns = matchToolRules out (allRules patterns) := by
  induction patterns with
  | nil => simp [matchGroups, allRules, matchToolRules]
  | cons g rest ih =>
    have : allRules (g :: rest) = g.2 ++ allRules rest := by
      simp [allRules]
    rw [this, matchToolRules_append]
    simp only [matchGroups]
    cases matchToolRules out g.2 <;> simp [ih]

theorem depMatchRules_append (hs : List (Str × Option Str)) (out : Str)
    (l1 l2 : List DependencyPattern) :
    depMatchRules hs out (l1 ++ l2) =
      match depMatchRules hs out l1 with
      | .error e => .error e
      | .ok (some m) => .ok (some m)
      | .ok none => depMatchRules hs out l2 := by
  induction l1 with
  | nil => simp [depMatchRules]
  | cons p rest ih =>
    cases hp : p.pattern with
    | invalid e =>
      simp only [List.cons_append, depMatchRules, hp]
    | compiled atoms =>
      cases hf : reFind dependencyFlags atoms out with
      | some full => simp only [List.cons_append, depMatchRules, hp, hf]
      | none =>
        simp only [List.cons_append, depMatchRules, hp, hf]
        exact ih

theorem depMatchRules_eq_ok_none (hs : List (Str × Option Str)) (out : Str)
    (l : List DependencyPattern)
    (h : ∀ q ∈ l, ∃ as, q.pattern = .compiled as
      ∧ reFind dependencyFlags as out = none) :
    depMatchRules hs out l = .ok none := by
  induction l with
  | nil => rfl
  | cons p rest ih =>
    obtain ⟨as, hpat, hfind⟩ := h p (by simp)
    simp only [depMatchRules, hpat, hfind]
    exact ih fun q hq => h q (by simp [hq])

theorem depMatchPattern_eq_allDepRules (hs : List (Str × Option Str))
    (out : Str) (patterns : List (Str × List DependencyPattern)) :
    depMatchPattern hs out patterns = depMatchRules hs out (allDepRules patterns) := by
  induction patterns with
  | nil => simp [depMatchPattern, allDepRules, depMatchRules]
  | cons g rest ih =>
    have : allDepRules (g :: rest) = g.2 ++ allDepRules rest := by
      simp [allDepRules]
    rw [this, depMatchRules_append]
    simp only [depMatchPattern]
    cases hg : depMatchRules hs out g.2 with
    | error e => simp
    | ok o => cases o <;> simp [ih]

/-! ## C5: matching flags and first-match-wins -/

/-- C5 (amended): both matchers return the first rule (groups in load
order, rules in declaration order) whose regex matches — but under
different flags than claimed: the formatting engine matches
case-SENSITIVELY with `.` spanning line boundaries
(`re.MULTILINE | re.DOTALL`), while the dependency engine matches
case-insensitively with `.` NOT spanning line boundaries
(`re.IGNORECASE | re.MULTILINE`). Neither engine applies the claimed
combination of case-insensitive matching AND matches spanning lines. -/
theorem C5_theorem :
    (formattingFlags.ignorecase = false ∧ formattingFlags.dotall = true
      ∧ dependencyFlags.ignorecase = true ∧ dependencyFlags.dotall = false)
    ∧ (∀ (patterns : List (Str × List PatternConfig)) (out : Str)
        (l1 : List PatternConfig) (pc : PatternConfig) (l2 : List PatternConfig)
        (m : MatchResult),
        (out.isEmpty || (pyStrip out).isEmpty) = false →
        allRules patterns = l1 ++ pc :: l2 →
        (∀ q ∈ l1, tryPatternMatch out q = none) →
        tryPatternMatch out pc = some m →
        matchOutput patterns out = some m)
    ∧ (∀ (patterns : List (Str × List DependencyPattern))
        (hs : List (Str × Option Str)) (out : Str)
        (l1 : List DependencyPattern) (p : DependencyPattern)
        (l2 : List DependencyPattern) (atoms : List RAtom) (full : Str),
        allDepRules patterns = l1 ++ p :: l2 →
        (∀ q ∈ l1, ∃ as, q.pattern = .compiled as
          ∧ reFind dependencyFlags as out = none) →
        p.pattern = .compiled atoms →
        reFind dependencyFlags atoms out = some full →
        depMatchPattern hs out patterns =
          .ok (some (buildDependencyMatch hs p full))) := by
  refine ⟨⟨rfl, rfl, rfl, rfl⟩, ?_, ?_⟩
  · intro patterns out l1 pc l2 m hblank hsplit hnone hm
    unfold matchOutput
    rw [hblank]
    simp only [Bool.false_eq_true, if_false]
    rw [matchGroups_eq_allRules, hsplit, matchToolRules_append,
      matchToolRules_eq_none out l1 hnone]
    simp [matchToolRules, hm]
  · intro patterns hs out l1 p l2 atoms full hsplit hnone hpat hfind
    rw [depMatchPattern_eq_allDepRules, hsplit, depMatchRules_append,
      depMatchRules_eq_ok_none hs out l1 hnone]
    simp [depMatchRules, hpat, hfind]

/-- Witness for C5 (amended): with a non-matching rule declared first and a
matching rule second, the formatting matcher returns the second rule's
result. -/
theorem C5_witness :
    matchOutput [("ruff".data, [fmtRuleNoMatch, fmtRuleError])] "error: x".data
      = some fmtMatchError :=
  C5_theorem.2.1 _ _ [fmtRuleNoMatch] fmtRuleError [] _ (by decide) (by decide)
    (by decide) (by decide)

/-- Counterexample for C5: the claim says matching is case-insensitive and
lets matches span lines. A formatting rule for the literal `error` would
match `ERROR: x` under the claimed flags but `match_output` returns `none`
(case-sensitive); a dependency rule `a.b` would match `a\nb` under the
claimed flags but `match_pattern` finds nothing (`.` stops at newlines). -/
theorem C5_counterexample :
    matchOutput [("ruff".data, [fmtRuleError])] "ERROR: x".data = none
    ∧ reSearch { ignorecase := true, dotall := true }
        (litAtoms "error".data) "ERROR: x".data = true
    ∧ depMatchPattern [] "a\nb".data [("deps".data, [depDotRule])] = .ok none
    ∧ reSearch { ignorecase := true, dotall := true }
        [.lit 'a', .dot, .lit 'b'] "a\nb".data = true := by
  exact ⟨by decide, by decide, by decide, by decide⟩

/-! ## C6: malformed rules -/

/-- C6 (amended): the FORMATTING engine behaves as claimed — a rule with no
pattern key, an uncompilable regex, or a missing required field is swallowed
(`_try_pattern_match` yields `none`) and matching continues with the
remaining rules unchanged; `validate_patterns` (a total function, so it
cannot throw) reports a descriptive error naming the rule for an invalid
regex and for a missing required field. The DEPENDENCY engine, however,
violates the claim: when its iteration reaches a rule whose regex does not
compile, `match_pattern` raises `re.error` and aborts matching instead of
continuing. -/
theorem C6_theorem :
    (∀ (out : Str) (pc : PatternConfig),
      (pc.pattern = none ∨ (∃ e, pc.pattern = some (.invalid e)) ∨ pc.id = none) →
      tryPatternMatch out pc = none)
    ∧ (∀ (out : Str) (l1 : List PatternConfig) (pc : PatternConfig)
        (l2 : List PatternConfig),
        tryPatternMatch out pc = none →
        matchToolRules out (l1 ++ pc :: l2) = matchToolRules out (l1 ++ l2))
    ∧ (∀ (pc : PatternConfig) (e : Str), pc.pattern = some (.invalid e) →
        ("Invalid regex in pattern ".data ++ idOrUnknown pc ++ ": ".data ++ e)
          ∈ validateOne pc)
    ∧ (∀ pc : PatternConfig, pc.name = none →
        ("Pattern ".data ++ idOrUnknown pc ++ " missing field: ".data
          ++ "name".data) ∈ validateOne pc)
    ∧ (∀ (patterns : List (Str × List DependencyPattern))
        (hs : List (Str × Option Str)) (out : Str)
        (l1 : List DependencyPattern) (p : DependencyPattern)
        (l2 : List DependencyPattern) (e : Str),
        allDepRules patterns = l1 ++ p :: l2 →
        (∀ q ∈ l1, ∃ as, q.pattern = .compiled as
          ∧ reFind dependencyFlags as out = none) →
        p.pattern = .invalid e →
        depMatchPattern hs out patterns = .error (.reError e)) := by
  refine ⟨?_, ?_, ?_, ?_, ?_⟩
  · intro out pc h
    rcases h with h | ⟨e, h⟩ | h
    · simp [tryPatternMatch, h]
    · simp [tryPatternMatch, h]
    · unfold tryPatternMatch
      cases hp : pc.pattern with
      | none => rfl
      | some rg =>
        cases rg with
        | invalid e => rfl
        | compiled atoms =>
          simp only [h]
          cases reFind formattingFlags atoms out <;> simp
  · intro out l1 pc l2 hnone
    rw [matchToolRules_append, matchToolRules_append]
    have : matchToolRules out (pc :: l2) = matchToolRules out l2 := by
      simp only [matchToolRules, hnone]
    rw [this]
  · intro pc e h
    unfold validateOne
    have : ("Invalid regex in pattern ".data ++ idOrUnknown pc ++ ": ".data ++ e)
        ∈ regexErrors pc := by
      simp [regexErrors, h]
    simp only [List.mem_append]
    tauto
  · intro pc h
    unfold validateOne
    have : ("Pattern ".data ++ idOrUnknown pc ++ " missing field: ".data
        ++ "name".data) ∈ missingFieldErrors pc := by
      apply List.mem_filterMap.mpr
      refine ⟨"name".data, by decide, ?_⟩
      simp [hasField, h]
    simp only [List.mem_append]
    tauto
  · intro patterns hs out l1 p l2 e hsplit hnone hpat
    rw [depMatchPattern_eq_allDepRules, hsplit, depMatchRules_append,
      depMatchRules_eq_ok_none hs out l1 hnone]
    simp [depMatchRules, hpat]

/-- Witness for C6 (amended): a formatting rule with an uncompilable regex
is swallowed by the matcher, and `validate_patterns` reports the
descriptive per-rule error for it. -/
theorem C6_witness :
    tryPatternMatch "boom: x".data fmtRuleBadRegex = none
    ∧ ("Invalid regex in pattern ".data ++ idOrUnknown fmtRuleBadRegex
        ++ ": ".data ++ "unbalanced".data) ∈ validateOne fmtRuleBadRegex :=
  ⟨C6_theorem.1 _ _ (Or.inr (Or.inl ⟨"unbalanced".data, rfl⟩)),
   C6_theorem.2.2.1 _ _ rfl⟩

/-- Counterexample for C6: in the dependency engine a rule set whose first
rule has an uncompilable regex makes `match_pattern` raise `re.error` and
abort, even though the next rule matches the input — matching neither
swallows the failure nor continues. -/
theorem C6_counterexample :
    depMatchPattern [] "boom happened".data
        [("deps".data, [depBadRule, depBoomRule])]
      = .error (.reError "bad regex".data)
    ∧ reSearch dependencyFlags (litAtoms "boom".data) "boom happened".data = true := by
  exact ⟨by decide, by decide⟩

/-! ## C2: workflow error propagation -/

theorem handleWorkflowExn_spec (e : PyExn) :
    (handleWorkflowExn e).success = false
    ∧ (handleWorkflowExn e).error_details = some (pyExnStr e) := by
  cases e <;> simp [handleWorkflowExn]

/-- C2 (amended): the FORMATTING workflow catches every exception kind — an
executor exception (validation, execution or timeout error) or a
verification/commit exception (syntax-verification or git-operation error)
raised inside `process_tool_output` is mapped to a
`WorkflowResult(success=False, error_details=str(e))`, so nothing escapes.
The DEPENDENCY workflow, however, has no such boundary: an exception raised
by the executor inside `apply_fix` propagates out of `execute_workflow` to
its caller. -/
theorem C2_theorem :
    (∀ (patterns : List (Str × List PatternConfig)) (gcfg : GitConfig)
        (genv : GitEnv) (ex : FmtExec) (out : Str) (vflag cflag : Bool)
        (s : GitState) (m : MatchResult) (e : PyExn) (s1 : GitState),
        matchOutput patterns out = some m →
        ex.runFix m.tool m.fix_command s = (.error e, s1) →
        (processToolOutput patterns gcfg genv ex out false vflag cflag s).1.success
            = false
        ∧ (processToolOutput patterns gcfg genv ex out false vflag cflag s).1.error_details
            = some (pyExnStr e))
    ∧ (∀ (patterns : List (Str × List PatternConfig)) (gcfg : GitConfig)
        (genv : GitEnv) (ex : FmtExec) (out : Str) (vflag : Bool)
        (s : GitState) (m : MatchResult) (cr : CommandResult) (s1 : GitState)
        (e : PyExn) (s2 : GitState),
        matchOutput patterns out = some m →
        ex.runFix m.tool m.fix_command s = (.ok cr, s1) →
        atomicFormatCommit genv m.commit_message_template m.tool
          gcfg.commit_author gcfg.include_file_count vflag s1 = (.error e, s2) →
        (processToolOutput patterns gcfg genv ex out false vflag true s).1.success
            = false
        ∧ (processToolOutput patterns gcfg genv ex out false vflag true s).1.error_details
            = some (pyExnStr e))
    ∧ (∀ (env : DepEnv) (out : Str) (st : ExecState) (fi : FixInfo) (c : Str)
        (e : PyExn) (st1 : ExecState),
        suggestFix env.patterns env.handlers out = .ok (some fi) →
        fi.action = some "execute".data →
        fi.fix_command = some c →
        execute env.cfg env.os c none none true st = (.error e, st1) →
        (executeWorkflow env out false st).1 = .error e) := by
  refine ⟨?_, ?_, ?_⟩
  · intro patterns gcfg genv ex out vflag cflag s m e s1 hmatch hrun
    unfold processToolOutput
    rw [hmatch]
    simp only [Bool.false_eq_true, if_false, hrun]
    exact handleWorkflowExn_spec e
  · intro patterns gcfg genv ex out vflag s m cr s1 e s2 hmatch hrun hcommit
    unfold processToolOutput
    rw [hmatch]
    simp only [Bool.false_eq_true, if_false, hrun, if_true, hcommit]
    exact handleWorkflowExn_spec e
  · intro env out st fi c e st1 hsug haction hcmd hexec
    unfold executeWorkflow
    rw [hsug]
    have happly : applyFix env fi false st = (.error e, st1) := by
      unfold applyFix
      rw [haction, hcmd]
      simp only [Option.getD_some, Option.isSome_some, Bool.and_true,
        Bool.false_eq_true, if_false, beq_self_eq_true, if_true, hexec]
    simp only [happly]

/-- Witness for C2 (amended): a formatting fix command that raises a
timeout error yields a `success = false` result carrying the error text —
the exception does not escape the formatting workflow. -/
theorem C2_witness :
    (processToolOutput [("ruff".data, [fmtRuleError])] {} okGitEnv
        fmtFailingExec "error: x".data false true true cleanState).1.success = false
    ∧ (processToolOutput [("ruff".data, [fmtRuleError])] {} okGitEnv
        fmtFailingExec "error: x".data false true true cleanState).1.error_details
      = some (pyExnStr fmtTimeoutExn) :=
  C2_theorem.1 _ _ _ _ _ _ _ _ fmtMatchError fmtTimeoutExn cleanState
    (by decide) rfl

/-- Counterexample for C2: in the dependency workflow a matched fix whose
command times out makes the `CommandTimeoutError` escape
`execute_workflow` to its caller, instead of being mapped to a
`success = false` outcome. -/
theorem C2_counterexample :
    escapedTimeout
      (executeWorkflow depTimeoutEnv "error: pixi.lock is outdated".data false
        emptyExecState).1 = true := by
  decide

/-! ## C1: atomicity of the verify-and-commit unit -/

/-- C1 (amended): when syntax verification fails inside
`atomic_format_commit` (with verification requested), the unit
unconditionally runs the full restore before re-raising the
`SyntaxVerificationError`, and the restore resets the index to `HEAD` (zero
staged changes remain). The tree afterwards is byte-identical to its state
before the fix command ran PROVIDED the tree was clean before the fix
(worktree and index equal to `HEAD`) and the fix only touched tracked
files; the restore targets `HEAD`, not a snapshot of the pre-fix state, so
for a dirty pre-fix tree byte-identity fails (see the counterexample). -/
theorem C1_theorem (env : GitEnv) (tmpl tool : Str) (author : Option Str)
    (inc : Bool) (s0 : GitState) (w : Str → Option Str)
    (hidx : s0.index = s0.head) (hwt : s0.worktree = s0.head)
    (hnew : ∀ f, s0.head f = none → w f = s0.worktree f)
    (hfail : syntaxFailures env { s0 with worktree := w } ≠ []) :
    ∃ msg failed, failed ≠ [] ∧
      atomicFormatCommit env tmpl tool author inc true { s0 with worktree := w } =
        (.error (.syntaxVerificationError msg failed), s0) := by
  refine ⟨"Syntax errors found in ".data
      ++ natToStr (syntaxFailures env { s0 with worktree := w }).length
      ++ " files".data,
    syntaxFailures env { s0 with worktree := w }, hfail, ?_⟩
  have hne : (syntaxFailures env { s0 with worktree := w }).isEmpty = false := by
    cases hfe : syntaxFailures env { s0 with worktree := w } with
    | nil => exact absurd hfe hfail
    | cons a t => rfl
  have hbody : atomicBody env tmpl tool author inc true { s0 with worktree := w } =
      (.error (.syntaxVerificationError
        ("Syntax errors found in ".data
          ++ natToStr (syntaxFailures env { s0 with worktree := w }).length
          ++ " files".data)
        (syntaxFailures env { s0 with worktree := w })),
       { s0 with worktree := w }) := by
    unfold atomicBody verifyChangedFiles
    simp [hne]
  have hrestore : restoreChanges { s0 with worktree := w } = s0 := by
    have hfun : (fun f => match s0.head f with
        | some c => some c
        | none => w f) = s0.worktree := by
      funext f
      cases hc : s0.head f with
      | some c =>
        have := congrFun hwt f
        rw [hc] at this
        simp [this]
      | none =>
        simp [hnew f hc]
    cases s0 with
    | mk paths head index worktree =>
      simp only at hidx hwt hnew hfun ⊢
      unfold restoreChanges
      simp only [GitState.mk.injEq]
      exact ⟨trivial, trivial, hidx.symm, hfun⟩
  unfold atomicFormatCommit
  rw [hbody]
  simp [hrestore]

/-- Witness for C1 (amended): starting from a clean single-file repository,
a fix that rewrites `a.py` to unparsable content makes the atomic commit
raise the verification error and return the tree byte-identical to the
pre-fix state. -/
theorem C1_witness :
    ∃ msg failed, failed ≠ [] ∧
      atomicFormatCommit cexGitEnv "m".data "black".data none true true
          { cleanState with worktree := brokenMap } =
        (.error (.syntaxVerificationError msg failed), cleanState) :=
  C1_theorem cexGitEnv "m".data "black".data none true cleanState brokenMap
    rfl rfl
    (by
      intro f hf
      by_cases hc : (f == "a.py".data) = true
      · exfalso
        simp only [cleanState, singleFileMap, hc, if_true] at hf
        cases hf
      · simp [brokenMap, cleanState, singleFileMap, hc])
    (by decide)

/-- Counterexample for C1: with an uncommitted local edit to `notes.txt`
already present before the fix ran, the restore resets `notes.txt` to its
`HEAD` content `orig`, so after the failed call the working tree is NOT
byte-identical to its pre-fix state (which held `edit`). -/
theorem C1_counterexample :
    raisedSyntaxError
      (atomicFormatCommit cexGitEnv "m".data "black".data none true true cexPost).1
      = true
    ∧ (atomicFormatCommit cexGitEnv "m".data "black".data none true true
        cexPost).2.worktree "notes.txt".data = some "orig".data
    ∧ cexPre.worktree "notes.txt".data = some "edit".data := by
  exact ⟨by decide, by decide, by decide⟩

/-! ## C8: output truncation -/

theorem countSub_append_self (m p : Str) (hm : m ≠ [])
    (hm0 : m[0]? = some '\n')
    (hnl : ∀ k < m.length, 0 < k → m[k]? ≠ some '\n')
    (hp : countSub m p = 0) :
    countSub m (p ++ m) = 1 := by
  have hml : 0 < m.length := List.length_pos.mpr hm
  have hlen : (p ++ m).length = p.length + m.length := by simp
  have key : ∀ i ∈ List.range ((p ++ m).length + 1),
      (m.isPrefixOf ((p ++ m).drop i) = true ↔ i = p.length) := by
    intro i hi
    rw [List.mem_range, hlen] at hi
    constructor
    · intro hocc
      by_contra hne
      rcases Nat.lt_or_ge i p.length with hlt | hge
      · have hdrop : (p ++ m).drop i = p.drop i ++ m :=
          List.drop_append_of_le_length (Nat.le_of_lt hlt)
        have htake := (isPrefixOf_iff_take m _).mp hocc
        rw [hdrop] at htake
        rcases Nat.lt_or_ge p.length (i + m.length) with hstrad | hfit
        · -- a straddling occurrence would need a second newline inside m
          have hjlen : (p.drop i).length = p.length - i := by simp
          have hj0 : 0 < p.length - i := by omega
          have hjm : p.length - i < m.length := by omega
          have h1 : m[p.length - i]? = (p.drop i ++ m)[p.length - i]? := by
            conv_lhs => rw [← htake]
            rw [List.getElem?_take_of_lt hjm]
          have h2 : (p.drop i ++ m)[p.length - i]? = m[0]? := by
            rw [List.getElem?_append_right (by rw [hjlen])]
            rw [hjlen, Nat.sub_self]
          rw [h2, hm0] at h1
          exact hnl _ hjm hj0 h1
        · -- an occurrence fully inside p contradicts countSub m p = 0
          have hfit2 : m.length ≤ (p.drop i).length := by
            rw [List.length_drop]; omega
          rw [List.take_append_of_le_length hfit2] at htake
          have hocc2 : m.isPrefixOf (p.drop i) = true :=
            (isPrefixOf_iff_take m _).mpr htake
          exact countSub_ne_zero_of_isPrefixOf (Nat.le_of_lt hlt) hocc2 hp
      · -- beyond the end the remaining text is shorter than m
        have hgt : p.length < i := by omega
        have htake := (isPrefixOf_iff_take m _).mp hocc
        have hshort : (((p ++ m).drop i).take m.length).length < m.length := by
          rw [List.length_take, List.length_drop, hlen]; omega
        rw [htake] at hshort
        omega
    · rintro rfl
      rw [List.drop_left, isPrefixOf_iff_take, List.take_length]
  unfold countSub
  have hcongr : (List.range ((p ++ m).length + 1)).countP
        (fun i => m.isPrefixOf ((p ++ m).drop i))
      = (List.range ((p ++ m).length + 1)).countP (fun i => i == p.length) := by
    apply List.countP_congr
    intro i hi
    constructor
    · intro hx
      exact beq_iff_eq.mpr ((key i hi).mp hx)
    · intro hx
      exact (key i hi).mpr (beq_iff_eq.mp hx)
  rw [hcongr, ← List.count_eq_countP]
  have hmem : p.length ∈ List.range ((p ++ m).length + 1) := by
    rw [List.mem_range, hlen]; omega
  exact List.count_eq_one_of_mem (List.nodup_range _) hmem

/-- C8 (amended): streams within the ceiling are returned unchanged;
streams over it are returned as the ceiling-length prefix with the marker
appended once at the end; `execute` truncates stdout and stderr
independently, each against its own marker; and the marker occurs exactly
once in the truncated stream PROVIDED the retained prefix does not itself
contain the marker text — when the original stream already contains the
marker, it can occur more than once (see the counterexample). -/
theorem C8_theorem :
    (∀ (limit : Nat) (marker s : Str), s.length ≤ limit →
      truncateOutput limit marker s = s)
    ∧ (∀ (limit : Nat) (marker s : Str), limit < s.length →
      truncateOutput limit marker s = s.take limit ++ marker)
    ∧ (∀ (cfg : ExecutorConfig) (os : OS) (command : Str) (t : Option Nat)
        (wd : Option Str) (st : ExecState) (rc : Int) (out err : Str),
        validateCommandSafety command = .ok () →
        os.run (shlexSplit command) = .completed rc out err →
        (execute cfg os command t wd true st).1 =
          .ok { command := command, return_code := rc
                stdout := truncateOutput cfg.max_output_size TRUNC_STDOUT_MARKER out
                stderr := truncateOutput cfg.max_output_size TRUNC_STDERR_MARKER err
                timed_out := false
                working_directory := wd.getD cfg.working_directory })
    ∧ (∀ (limit : Nat) (s : Str), limit < s.length →
        countSub TRUNC_STDOUT_MARKER (s.take limit) = 0 →
        countSub TRUNC_STDOUT_MARKER
          (truncateOutput limit TRUNC_STDOUT_MARKER s) = 1)
    ∧ (∀ (limit : Nat) (s : Str), limit < s.length →
        countSub TRUNC_STDERR_MARKER (s.take limit) = 0 →
        countSub TRUNC_STDERR_MARKER
          (truncateOutput limit TRUNC_STDERR_MARKER s) = 1) := by
  refine ⟨?_, ?_, ?_, ?_, ?_⟩
  · intro limit marker s hle
    unfold truncateOutput
    simp [Nat.not_lt.mpr hle]
  · intro limit marker s hlt
    unfold truncateOutput
    simp [hlt]
  · intro cfg os command t wd st rc out err hv hrun
    unfold execute executeRun
    rw [if_pos rfl, hv]
    simp [hrun]
  · intro limit s hlt h0
    have h2 : truncateOutput limit TRUNC_STDOUT_MARKER s
        = s.take limit ++ TRUNC_STDOUT_MARKER := by
      unfold truncateOutput; simp [hlt]
    rw [h2]
    exact countSub_append_self _ _ (by decide) (by decide) (by decide) h0
  · intro limit s hlt h0
    have h2 : truncateOutput limit TRUNC_STDERR_MARKER s
        = s.take limit ++ TRUNC_STDERR_MARKER := by
      unfold truncateOutput; simp [hlt]
    rw [h2]
    exact countSub_append_self _ _ (by decide) (by decide) (by decide) h0

/-- Witness for C8 (amended): a short stream passes through unchanged, and
a 10-character stream under a 5-byte ceiling ends with the marker occurring
exactly once. -/
theorem C8_witness :
    truncateOutput 50 TRUNC_STDOUT_MARKER "ok".data = "ok".data
    ∧ countSub TRUNC_STDOUT_MARKER
        (truncateOutput 5 TRUNC_STDOUT_MARKER "0123456789".data) = 1 :=
  ⟨C8_theorem.1 50 TRUNC_STDOUT_MARKER "ok".data (by decide),
   C8_theorem.2.2.2.1 5 "0123456789".data (by decide) (by decide)⟩

/-- Counterexample for C8: a process whose stdout already starts with the
truncation marker and exceeds a 50-byte ceiling yields a returned stdout in
which the marker occurs twice, refuting "the truncation marker is present
exactly once". -/
theorem C8_counterexample :
    countSub TRUNC_STDOUT_MARKER
      (execStdout
        (execute smallCfg markerEchoOS "ruff".data none none true
          emptyExecState).1) = 2 := by
  decide
